import Mathlib

/-!
Verification of the DOGE funding-bot core (OKX gateway + shared-ledger
coordination layer).  The definitions below are a shallow embedding of the
Python sources: Python floats are modelled as rationals, the exchange is
modelled as an explicit environment of responses, and every side-effecting
method is a pure function returning the list of effects it issues (network
requests and alert messages), the new ledger row, and its result.
-/

namespace DogeBot

/-- The persistent ledger row of src/db/state.py: one record
(spot_qty, perp_qty, loan_usdt), perp negative meaning short. -/
structure Ledger where
  spot_qty : ℚ
  perp_qty : ℚ
  loan_usdt : ℚ
deriving Repr, DecidableEq

/-- A network request issued through the gateway, identified by endpoint and
the payload fields the claims talk about. -/
inductive Req where
  | ticker : Req
  | balance : Req
  | equity : Req
  | maxSize : Req
  | maxLoan : Req
  | riskState : Req
  | order (side : String) (sz : ℚ) : Req
  | closePosition : Req
  | borrowRepay (side : String) (amt : Option ℚ) : Req
deriving Repr, DecidableEq

/-- An observable effect: a network request or a Telegram alert
(the alert text is abbreviated, keeping the distinguishing words). -/
inductive Eff where
  | req (r : Req) : Eff
  | alert (text : String) : Eff
deriving Repr, DecidableEq

/-- Typed failures raised by the executors (Python exceptions). -/
inductive Err where
  | invalidQuantity : Err
  | noTicker : Err
  | insufficientBalance : Err
  | insufficientMargin : Err
  | httpError : Err
  | orderRejected : Err
  | noSpotPosition : Err
deriving Repr, DecidableEq

/-- One item of the data array of an OKX response envelope. -/
structure RespItem where
  sCode : String
deriving Repr, DecidableEq

/-- The exchange's answer to a POST as the gateway sees it: either a non-2xx
HTTP status (raise_for_status raises) or a 200 envelope with its embedded
code and data array. -/
inductive PostResult where
  | httpErr : PostResult
  | ok (code : String) (data : List RespItem) : PostResult
deriving Repr, DecidableEq

/-- Account data used by PerpExec.check_margin_requirements. -/
structure MarginData where
  totalEq : ℚ
  adjEq : ℚ
deriving Repr, DecidableEq

/-- Loan-quota data used by BorrowMgr (availableQuota = loanQuota - usedQuota). -/
structure LoanInfo where
  availableQuota : ℚ
deriving Repr, DecidableEq

/-- The exchange environment: the responses the exchange would give to each
kind of read or mutating call during one executor action.  Optional reads
model the Python helpers that swallow errors and return None. -/
structure Env where
  ticker : Option ℚ
  availEq : Option ℚ
  equity : ℚ
  maxSizeInfo : Option (ℚ × ℚ)
  marginData : Option MarginData
  maxLoanInfo : Option LoanInfo
  orderResp : PostResult
  closeResp : PostResult
  borrowResp : PostResult
  repayResp : PostResult
  riskRatio : ℚ
deriving Repr, DecidableEq

namespace OKXGateway

/-- OKXGateway.post (gateway.py lines 158-186): raises only on non-2xx HTTP
status; an application-level rejection (envelope code not "0", or items with
sCode 51000/51008) is merely logged and alerted, and the data array is
returned to the caller as if the call had succeeded. -/
def post (r : PostResult) : Except Err (List RespItem) :=
  match r with
  | .httpErr => .error .httpError
  | .ok _ data => .ok data

/-- OKXGateway.post_order (gateway.py lines 188-198): delegates to post and
additionally raises orderRejected when the data array is empty or its first
item's sCode is not "0". -/
def post_order (r : PostResult) : Except Err (List RespItem) :=
  match post r with
  | .error e => .error e
  | .ok data =>
    match data with
    | [] => .error .orderRejected
    | item :: _ => if item.sCode = "0" then .ok data else .error .orderRejected

end OKXGateway

/-- The data array's first item has sCode "0": the per-item success shape that
post_order and close_all accept. -/
def postOk (r : PostResult) : Prop :=
  match r with
  | .ok _ (item :: _) => item.sCode = "0"
  | _ => False

instance : DecidablePred postOk := by
  intro r
  unfold postOk
  match r with
  | .httpErr => exact inferInstanceAs (Decidable False)
  | .ok _ [] => exact inferInstanceAs (Decidable False)
  | .ok _ (item :: _) => exact inferInstanceAs (Decidable (item.sCode = "0"))

namespace SpotExec

/-- Tail of SpotExec.buy (spot.py lines 97-131): the max-size adjustment
followed by the order placement and, on success, the ledger update.
effs is the trace accumulated by the earlier balance checks. -/
def buyOrder (env : Env) (st : Ledger) (qty : ℚ) (effs : List Eff) :
    List Eff × Ledger × Except Err Bool :=
  let sized :=
    match env.maxSizeInfo with
    | some (maxBuy, _) =>
      if maxBuy ≠ 0 ∧ qty > maxBuy then
        (maxBuy, [Eff.alert "Reducing buy size due to max-size"])
      else (qty, [])
    | none => (qty, [])
  let q := sized.1
  let effs2 := effs ++ [Eff.req .maxSize] ++ sized.2 ++ [Eff.req (.order "buy" q)]
  match OKXGateway.post_order env.orderResp with
  | .error e => (effs2 ++ [Eff.alert "Spot buy failed"], st, .error e)
  | .ok _ =>
    (effs2 ++ [Eff.alert "Spot BUY"],
      { st with spot_qty := st.spot_qty + q }, .ok true)

/-- SpotExec.buy (spot.py lines 50-131): rejects non-positive qty before any
network call, fetches the ticker, runs the detailed balance check (raising
insufficientBalance when availEq is short of cost * 1.05), falls back to a
plain equity warning when the detailed check is unavailable, then places the
order and updates spot_qty on success. -/
def buy (env : Env) (st : Ledger) (qty : ℚ) :
    List Eff × Ledger × Except Err Bool :=
  if qty ≤ 0 then ([], st, .error .invalidQuantity)
  else
    match env.ticker with
    | none => ([Eff.req .ticker], st, .error .noTicker)
    | some price =>
      let estimated := qty * price
      let balEffs : List Eff := [Eff.req .ticker, Eff.req .balance]
      match env.availEq with
      | some availEq =>
        if availEq ≥ estimated * 1.05 then
          buyOrder env st qty balEffs
        else
          (balEffs ++ [Eff.alert "Insufficient balance for spot buy"], st,
            .error .insufficientBalance)
      | none =>
        let warn : List Eff :=
          if estimated > env.equity * 0.95 then
            [Eff.alert "Potential insufficient balance"]
          else []
        buyOrder env st qty (balEffs ++ [Eff.req .equity] ++ warn)

/-- SpotExec.sell (spot.py lines 133-173): rejects non-positive qty, clamps a
request larger than the stored spot position down to the stored quantity
(raising noSpotPosition only when that stored quantity is itself non-positive),
places the order, and on success reduces spot_qty by the clamped quantity. -/
def sell (env : Env) (st : Ledger) (qty : ℚ) :
    List Eff × Ledger × Except Err Bool :=
  if qty ≤ 0 then ([], st, .error .invalidQuantity)
  else
    let clamped := qty > st.spot_qty
    let q := if clamped then st.spot_qty else qty
    let clampEffs : List Eff :=
      if clamped then [Eff.alert "Trying to sell more than position"] else []
    if clamped ∧ q ≤ 0 then
      (clampEffs, st, .error .noSpotPosition)
    else
      match OKXGateway.post_order env.orderResp with
      | .error e =>
        (clampEffs ++ [Eff.req (.order "sell" q), Eff.alert "Spot sell failed"],
          st, .error e)
      | .ok _ =>
        (clampEffs ++ [Eff.req (.order "sell" q), Eff.req .ticker,
            Eff.alert "Spot SELL"],
          { st with spot_qty := st.spot_qty - q }, .ok true)

end SpotExec

namespace PerpExec

/-- Result of PerpExec.check_margin_requirements (perp.py lines 16-49). -/
structure MarginCheck where
  adj_equity : ℚ
  mark_price : ℚ
  estimated_margin : ℚ
  margin_sufficient : Bool
deriving Repr, DecidableEq

/-- PerpExec.check_margin_requirements: reads balance and ticker, estimates
the margin as 15 percent of notional, and requires adjusted equity of at
least twice that; any missing data yields none (the caller then proceeds). -/
def check_margin_requirements (env : Env) (qty : ℚ) :
    List Eff × Option MarginCheck :=
  match env.marginData with
  | none => ([Eff.req .balance], none)
  | some md =>
    match env.ticker with
    | none => ([Eff.req .balance, Eff.req .ticker], none)
    | some price =>
      let notional := qty * price
      let est := notional * 0.15
      ([Eff.req .balance, Eff.req .ticker],
        some { adj_equity := md.adjEq, mark_price := price,
               estimated_margin := est,
               margin_sufficient := decide (md.adjEq ≥ est * 2) })

/-- PerpExec.short (perp.py lines 51-94): rejects non-positive qty before any
network call, aborts with insufficientMargin when the margin check is present
and negative, then places the sell order and decreases perp_qty on success. -/
def short (env : Env) (st : Ledger) (qty : ℚ) :
    List Eff × Ledger × Except Err Bool :=
  if qty ≤ 0 then ([], st, .error .invalidQuantity)
  else
    let mc := check_margin_requirements env qty
    let inOrder :=
      fun (effs : List Eff) =>
        let effs2 := effs ++ [Eff.req (.order "sell" qty)]
        match OKXGateway.post_order env.orderResp with
        | .error e => (effs2 ++ [Eff.alert "Perp short failed"], st, Except.error e)
        | .ok _ =>
          (effs2 ++ [Eff.alert "Perp SHORT"],
            { st with perp_qty := st.perp_qty - qty }, Except.ok true)
    match mc.2 with
    | some c =>
      if c.margin_sufficient then inOrder mc.1
      else
        (mc.1 ++ [Eff.alert "Insufficient margin for short"], st,
          .error .insufficientMargin)
    | none => inOrder mc.1

/-- PerpExec.close_all (perp.py lines 96-128): a no-op success when the stored
perp quantity is not short; otherwise posts close-position, raises
orderRejected unless the first item's sCode is "0", and zeroes perp_qty on
success. -/
def close_all (env : Env) (st : Ledger) :
    List Eff × Ledger × Except Err Bool :=
  if st.perp_qty ≥ 0 then
    ([Eff.alert "No short position to close"], st, .ok true)
  else
    match OKXGateway.post env.closeResp with
    | .error e =>
      ([Eff.req .closePosition, Eff.alert "Perp CLOSE rejected"], st, .error e)
    | .ok data =>
      match data with
      | [] =>
        ([Eff.req .closePosition, Eff.alert "Perp CLOSE failed"], st,
          .error .orderRejected)
      | item :: _ =>
        if item.sCode = "0" then
          ([Eff.req .closePosition, Eff.alert "Perp short closed"],
            { st with perp_qty := 0 }, .ok true)
        else
          ([Eff.req .closePosition, Eff.alert "Perp CLOSE failed"], st,
            .error .orderRejected)

end PerpExec

namespace BorrowMgr

/-- Tail of BorrowMgr.borrow (borrow.py lines 91-108): post the borrow call;
the surrounding try swallows exceptions into False.  Because gateway.post
returns normally on a 200 envelope whatever its embedded code, the ledger's
loan_usdt is increased whenever the HTTP layer succeeds. -/
def borrowPost (env : Env) (st : Ledger) (usdt : ℚ) (effs : List Eff) :
    List Eff × Ledger × Bool :=
  match OKXGateway.post env.borrowResp with
  | .error _ =>
    (effs ++ [Eff.req (.borrowRepay "borrow" (some usdt)),
        Eff.alert "Borrow failed"], st, false)
  | .ok _ =>
    (effs ++ [Eff.req (.borrowRepay "borrow" (some usdt)),
        Eff.alert "Borrowed"],
      { st with loan_usdt := st.loan_usdt + usdt }, true)

/-- BorrowMgr.borrow (borrow.py lines 81-108): returns False for non-positive
amounts before any network call; aborts when the requested amount exceeds the
available quota; otherwise posts borrow-repay and adds the amount to
loan_usdt unless an exception was raised. -/
def borrow (env : Env) (st : Ledger) (usdt : ℚ) :
    List Eff × Ledger × Bool :=
  if usdt ≤ 0 then ([], st, false)
  else
    let infoEffs : List Eff := [Eff.req .maxLoan]
    match env.maxLoanInfo with
    | some li =>
      if usdt > li.availableQuota then
        (infoEffs ++ [Eff.alert "Requested loan exceeds available quota"],
          st, false)
      else borrowPost env st usdt infoEffs
    | none => borrowPost env st usdt infoEffs

/-- BorrowMgr.repay_all (borrow.py lines 110-123): posts borrow-repay with
side repay and empty amount, then zeroes loan_usdt unless an exception was
raised; the envelope code of a 200 response is never inspected. -/
def repay_all (env : Env) (st : Ledger) : List Eff × Ledger × Bool :=
  match OKXGateway.post env.repayResp with
  | .error _ =>
    ([Eff.req (.borrowRepay "repay" none), Eff.alert "Repay failed"],
      st, false)
  | .ok _ =>
    ([Eff.req (.borrowRepay "repay" none), Eff.alert "Loan fully repaid"],
      { st with loan_usdt := 0 }, true)

/-- BorrowMgr.repay (borrow.py lines 125-141): returns True without any
network call for a non-positive amount; otherwise posts the repayment and
lowers loan_usdt by the amount, floored at zero. -/
def repay (env : Env) (st : Ledger) (usdt : ℚ) :
    List Eff × Ledger × Bool :=
  if usdt ≤ 0 then ([], st, true)
  else
    match OKXGateway.post env.repayResp with
    | .error _ =>
      ([Eff.req (.borrowRepay "repay" (some usdt)), Eff.alert "Repay failed"],
        st, false)
    | .ok _ =>
      ([Eff.req (.borrowRepay "repay" (some usdt)), Eff.alert "Repaid"],
        { st with loan_usdt := max (st.loan_usdt - usdt) 0 }, true)

end BorrowMgr

namespace Monitors

/-- The funding-flip threshold set in Monitors.__init__ (monitors.py line 26). -/
def flip_thr : ℚ := 0.00001

/-- The liquidation-gap threshold, default of the LIQ_THRESHOLD environment
variable (monitors.py line 20). -/
def LIQ_THRESHOLD : ℚ := 0.002

/-- A funding-rate channel message as funding_loop reads it. -/
structure FundingMsg where
  instId : String
  fundingRate : ℚ
deriving Repr, DecidableEq

/-- A positions channel message as liq_loop reads it. -/
structure PosMsg where
  instId : String
  posSide : String
  liqPx : ℚ
  markPx : ℚ
deriving Repr, DecidableEq

/-- Body of Monitors.funding_loop for one stream message (monitors.py lines
30-40): skip messages for other instruments; when the next funding rate is at
or below the flip threshold, run close_all then repay_all.  An exception from
close_all propagates out of the loop, so repay_all is only reached after
close_all returns. -/
def funding_step (env : Env) (pairSwap : String) (st : Ledger)
    (m : FundingMsg) : List Eff × Ledger × Except Err Unit :=
  if m.instId ≠ pairSwap then ([], st, .ok ())
  else if m.fundingRate ≤ flip_thr then
    let a : List Eff := [Eff.alert "Funding flip, closing legs"]
    let r1 := PerpExec.close_all env st
    match r1.2.2 with
    | .error e => (a ++ r1.1, r1.2.1, .error e)
    | .ok _ =>
      let r2 := BorrowMgr.repay_all env r1.2.1
      (a ++ r1.1 ++ r2.1, r2.2.1, .ok ())
  else ([], st, .ok ())

/-- Body of Monitors.liq_loop for one stream message (monitors.py lines
62-90): only messages for the watched short leg with a non-zero liquidation
price are considered; gap = (liqPx - markPx) / markPx; at or below the
threshold the unwind runs (close_all then repay_all), the account risk state
is read, and at risk ratio 0.80 or above 30 percent of the stored spot
quantity is sold when positive. -/
def liq_step (env : Env) (pairSwap : String) (st : Ledger) (m : PosMsg) :
    List Eff × Ledger × Except Err Unit :=
  if m.instId ≠ pairSwap ∨ m.posSide ≠ "short" then ([], st, .ok ())
  else if m.liqPx = 0 then ([], st, .ok ())
  else
    let gap := (m.liqPx - m.markPx) / m.markPx
    if gap ≤ LIQ_THRESHOLD then
      let a : List Eff := [Eff.alert "Mark near Liq, closing legs"]
      let r1 := PerpExec.close_all env st
      match r1.2.2 with
      | .error e => (a ++ r1.1, r1.2.1, .error e)
      | .ok _ =>
        let r2 := BorrowMgr.repay_all env r1.2.1
        let base := a ++ r1.1 ++ r2.1 ++ [Eff.req .riskState]
        if env.riskRatio ≥ 0.80 then
          let cut := r2.2.1.spot_qty * 0.30
          if cut > 0 then
            let a2 : List Eff := [Eff.alert "selling to de-leverage"]
            let r3 := SpotExec.sell env r2.2.1 cut
            match r3.2.2 with
            | .error e => (base ++ a2 ++ r3.1, r3.2.1, .error e)
            | .ok _ => (base ++ a2 ++ r3.1, r3.2.1, .ok ())
          else (base, r2.2.1, .ok ())
        else (base, r2.2.1, .ok ())
    else ([], st, .ok ())

end Monitors

namespace Rebalancer

/-- The rebalance threshold set in Rebalancer.__init__ (rebalance.py line 28). -/
def thr : ℚ := 0.01

/-- Rebalancer.check_rebalance_feasibility (rebalance.py lines 30-56):
closing short is always feasible; increasing it requires equity of at least
three times a conservative margin estimate of 20 percent of notional. -/
def check_rebalance_feasibility (env : Env) (imbalance : ℚ) :
    List Eff × Bool :=
  if imbalance < 0 then ([], true)
  else
    match env.ticker with
    | none => ([Eff.req .equity, Eff.req .ticker], false)
    | some price =>
      let required := |imbalance| * price * 0.2
      if env.equity < required * 3 then
        ([Eff.req .equity, Eff.req .ticker,
          Eff.alert "Insufficient margin for rebalance"], false)
      else ([Eff.req .equity, Eff.req .ticker], true)

/-- The shared close-then-re-establish tail of Rebalancer.safe_rebalance's
negative branch (rebalance.py lines 80-104): close the whole short, then if
there is spot left, re-open a short of the full spot quantity when feasible.
Exceptions are swallowed into False by the surrounding try. -/
def closeReopen (env : Env) (st : Ledger) (spot : ℚ)
    (okMsg failMsg : String) : List Eff × Ledger × Bool :=
  let rc := PerpExec.close_all env st
  match rc.2.2 with
  | .error _ => (rc.1 ++ [Eff.alert "Rebalance failed"], rc.2.1, false)
  | .ok _ =>
    if spot > 0 then
      let fe := check_rebalance_feasibility env spot
      if fe.2 then
        let rs := PerpExec.short env rc.2.1 spot
        match rs.2.2 with
        | .error _ =>
          (rc.1 ++ fe.1 ++ rs.1 ++ [Eff.alert "Rebalance failed"],
            rs.2.1, false)
        | .ok _ =>
          (rc.1 ++ fe.1 ++ rs.1 ++ [Eff.alert okMsg], rs.2.1, true)
      else (rc.1 ++ fe.1 ++ [Eff.alert failMsg], rc.2.1, true)
    else (rc.1, rc.2.1, true)

/-- Rebalancer.safe_rebalance (rebalance.py lines 58-111): a positive
imbalance adds a short of the whole imbalance after the feasibility check; a
non-positive imbalance closes the short and re-establishes it at the spot
quantity.  Exceptions raised by the executors are swallowed into False. -/
def safe_rebalance (env : Env) (st : Ledger) (imbalance spot : ℚ) :
    List Eff × Ledger × Bool :=
  if imbalance > 0 then
    let fe := check_rebalance_feasibility env imbalance
    if fe.2 then
      let rs := PerpExec.short env st |imbalance|
      match rs.2.2 with
      | .error _ =>
        (fe.1 ++ rs.1 ++ [Eff.alert "Rebalance failed"], rs.2.1, false)
      | .ok _ =>
        (fe.1 ++ rs.1 ++ [Eff.alert "Added short position"], rs.2.1, true)
    else
      (fe.1 ++ [Eff.alert "Skipping rebalance due to insufficient margin"],
        st, false)
  else
    let current0 := |imbalance|
    let stored := st.perp_qty
    let current := if |stored| < current0 then |stored| else current0
    if current > spot * (0.5 : ℚ) then
      closeReopen env st spot "Re-established short position"
        "Could not re-establish short position"
    else
      closeReopen env st spot "Adjusted short position"
        "Could not adjust short position"

/-- One iteration of Rebalancer.run (rebalance.py lines 113-145): skip when
spot is zero; compute delta = abs(spot+perp)/spot; at or above the threshold
compute the imbalance, and only when abs(imbalance) strictly exceeds
spot * thr invoke safe_rebalance; on success re-read the ledger and recompute
the delta (returned as the third component; none = no re-read happened). -/
def run_cycle (env : Env) (st : Ledger) : List Eff × Ledger × Option ℚ :=
  if st.spot_qty = 0 then ([], st, none)
  else
    let spot := st.spot_qty
    let perp := st.perp_qty
    let delta := |spot + perp| / spot
    if delta ≥ thr then
      let a : List Eff := [Eff.alert "rebalancing"]
      let imbalance := spot + perp
      if |imbalance| > spot * thr then
        let r := safe_rebalance env st imbalance spot
        if r.2.2 then
          let st1 := r.2.1
          let newDelta :=
            if st1.spot_qty > 0 then |st1.spot_qty + st1.perp_qty| / st1.spot_qty
            else 0
          (a ++ r.1 ++ [Eff.alert "Rebalance complete"], st1, some newDelta)
        else
          (a ++ r.1 ++ [Eff.alert "Rebalance failed - will retry next cycle"],
            r.2.1, none)
      else (a, st, none)
    else ([], st, none)

end Rebalancer

namespace Gateway

/-- One read attempt of the private WebSocket stream: either a message is
received within the 30s timeout, or the read ends in a timeout, close or
error (all handled alike by ws_private_stream). -/
inductive WsEv where
  | okMsg : WsEv
  | failure : WsEv
deriving Repr, DecidableEq

/-- The backoff bookkeeping of OKXGateway.ws_private_stream (gateway.py lines
253-272) over a sequence of read attempts, starting from the current
reconnect_delay d: a successful read resets the delay to 1; a failed read
sleeps the current delay and then doubles it, capped at 60.  Returns the list
of slept delays in order together with the final delay. -/
def wsRun : List WsEv → ℚ → List ℚ × ℚ
  | [], d => ([], d)
  | .okMsg :: evs, _ => wsRun evs 1
  | .failure :: evs, d =>
    let r := wsRun evs (min (2 * d) 60)
    (d :: r.1, r.2)

end Gateway

namespace StateDB

/-- An atomic ledger operation of src/db/state.py: each of get and save
acquires the store's asyncio.Lock, so the interleaving unit is a whole get or
a whole save, tagged with the calling task. -/
inductive LOp where
  | get (caller : ℕ) : LOp
  | save (caller : ℕ) : LOp
deriving Repr, DecidableEq

/-- State of an interleaved execution: the persisted ledger row plus, per
caller, the value its last get returned (the local variables of the Python
read-modify-write sequences). -/
structure ExecState where
  ledger : Ledger
  reads : ℕ → Option Ledger

/-- Execute one atomic operation.  f gives each caller's read-modify-write
function (the compute step between its get and its save); a save writes
f applied to the value that caller last read. -/
def stepOp (f : ℕ → Ledger → Ledger) (s : ExecState) : LOp → ExecState
  | .get i => { s with reads := Function.update s.reads i (some s.ledger) }
  | .save i =>
    match s.reads i with
    | some v => { s with ledger := f i v }
    | none => s

/-- Run a history of atomic ledger operations from an initial row. -/
def runOps (f : ℕ → Ledger → Ledger) (s0 : Ledger) (h : List LOp) : Ledger :=
  (h.foldl (stepOp f) { ledger := s0, reads := fun _ => none }).ledger

/-- The history in which every caller holds the exclusive gate across its own
read-modify-write: each get is immediately followed by the same caller's
save, so no two critical sections interleave. -/
def gated (callers : List ℕ) : List LOp :=
  (callers.map (fun i => [LOp.get i, LOp.save i])).flatten

end StateDB

namespace Signer

/-- Right rotation of a 32-bit word represented as a natural below 2^32. -/
def rotr (n x : ℕ) : ℕ := (x >>> n) ||| ((x <<< (32 - n)) % 4294967296)

/-- SHA-256 round constants (FIPS 180-4, written in decimal). -/
def K : List ℕ :=
  [1116352408, 1899447441, 3049323471, 3921009573, 961987163,
   1508970993, 2453635748, 2870763221, 3624381080, 310598401,
   607225278, 1426881987, 1925078388, 2162078206, 2614888103,
   3248222580, 3835390401, 4022224774, 264347078, 604807628,
   770255983, 1249150122, 1555081692, 1996064986, 2554220882,
   2821834349, 2952996808, 3210313671, 3336571891, 3584528711,
   113926993, 338241895, 666307205, 773529912, 1294757372,
   1396182291, 1695183700, 1986661051, 2177026350, 2456956037,
   2730485921, 2820302411, 3259730800, 3345764771, 3516065817,
   3600352804, 4094571909, 275423344, 430227734, 506948616,
   659060556, 883997877, 958139571, 1322822218, 1537002063,
   1747873779, 1955562222, 2024104815, 2227730452, 2361852424,
   2428436474, 2756734187, 3204031479, 3329325298]

/-- SHA-256 initial hash value (FIPS 180-4, written in decimal). -/
def H0 : List ℕ :=
  [1779033703, 3144134277, 1013904242, 2773480762, 1359893119,
   2600822924, 528734635, 1541459225]

/-- Big-endian byte encoding of a natural into k bytes. -/
def toBytesBE : ℕ → ℕ → List ℕ
  | 0, _ => []
  | k + 1, n => toBytesBE k (n / 256) ++ [n % 256]

/-- Big-endian byte decoding. -/
def fromBytesBE (l : List ℕ) : ℕ := l.foldl (fun a b => a * 256 + b) 0

/-- SHA-256 message padding: append 0x80, zeros to 56 mod 64, then the bit
length on 8 bytes. -/
def sha256pad (msg : List ℕ) : List ℕ :=
  let len := msg.length
  let z := (120 - ((len + 1) % 64)) % 64
  msg ++ [128] ++ List.replicate z 0 ++ toBytesBE 8 (8 * len)

def smallSigma0 (x : ℕ) : ℕ := rotr 7 x ^^^ rotr 18 x ^^^ (x >>> 3)
def smallSigma1 (x : ℕ) : ℕ := rotr 17 x ^^^ rotr 19 x ^^^ (x >>> 10)
def bigSigma0 (x : ℕ) : ℕ := rotr 2 x ^^^ rotr 13 x ^^^ rotr 22 x
def bigSigma1 (x : ℕ) : ℕ := rotr 6 x ^^^ rotr 11 x ^^^ rotr 25 x
def ch (x y z : ℕ) : ℕ := (x &&& y) ^^^ ((x ^^^ 0xffffffff) &&& z)
def maj (x y z : ℕ) : ℕ := (x &&& y) ^^^ (x &&& z) ^^^ (y &&& z)

/-- Extend the 16 message-schedule words of one block to 64. -/
def extendW (w16 : List ℕ) : List ℕ :=
  (List.range 48).foldl
    (fun w _ =>
      let n := w.length
      w ++ [(smallSigma1 (w.getD (n - 2) 0) + w.getD (n - 7) 0 +
             smallSigma0 (w.getD (n - 15) 0) + w.getD (n - 16) 0) % 4294967296])
    w16

/-- SHA-256 compression of one 64-byte block into the running hash state. -/
def compress (hs block : List ℕ) : List ℕ :=
  let w16 := (List.range 16).map (fun i => fromBytesBE ((block.drop (4 * i)).take 4))
  let w := extendW w16
  let step := fun (st : List ℕ) (t : ℕ) =>
    match st with
    | [a, b, c, d, e, f, g, h] =>
      let t1 := (h + bigSigma1 e + ch e f g + K.getD t 0 + w.getD t 0) % 4294967296
      let t2 := (bigSigma0 a + maj a b c) % 4294967296
      [(t1 + t2) % 4294967296, a, b, c, (d + t1) % 4294967296, e, f, g]
    | other => other
  let hf := (List.range 64).foldl step hs
  (hs.zip hf).map (fun p => (p.1 + p.2) % 4294967296)

/-- SHA-256 of a byte list, as 32 bytes: pad, then compress the 64-byte
blocks in order. -/
def sha256 (msg : List ℕ) : List ℕ :=
  let padded := sha256pad msg
  let blocks := (List.range (padded.length / 64)).map
    (fun i => (padded.drop (64 * i)).take 64)
  ((blocks.foldl compress H0).map (toBytesBE 4)).flatten

/-- HMAC-SHA256 (the behaviour of Python's hmac.new(key, msg, sha256)):
block size 64, key hashed when longer, padded with zeros, inner pad 0x36,
outer pad 0x5c. -/
def hmacSha256 (key msg : List ℕ) : List ℕ :=
  let k0 := if 64 < key.length then sha256 key else key
  let kp := k0 ++ List.replicate (64 - k0.length) 0
  let ipadded := kp.map (fun b => b ^^^ 0x36)
  let opadded := kp.map (fun b => b ^^^ 0x5c)
  sha256 (opadded ++ sha256 (ipadded ++ msg))

/-- The standard base64 alphabet. -/
def b64Table : List Char :=
  "ABCDEFGHIJKLMNOPQRSTUVWXYZabcdefghijklmnopqrstuvwxyz0123456789+/".data

def b64At (i : ℕ) : Char := b64Table.getD i 'A'

/-- Base64 encoding of a byte list (the behaviour of Python's
base64.b64encode), with trailing padding. -/
def b64chars : List ℕ → List Char
  | [] => []
  | [a] => [b64At (a / 4), b64At (a % 4 * 16), '=', '=']
  | [a, b] => [b64At (a / 4), b64At (a % 4 * 16 + b / 16), b64At (b % 16 * 4), '=']
  | a :: b :: c :: rest =>
    b64At (a / 4) :: b64At (a % 4 * 16 + b / 16) ::
      b64At (b % 16 * 4 + c / 64) :: b64At (c % 64) :: b64chars rest

def base64Encode (l : List ℕ) : String := String.mk (b64chars l)

/-- UTF-8 bytes of a string (the behaviour of Python's str.encode()). -/
def strBytes (s : String) : List ℕ := s.toUTF8.toList.map (fun b => b.toNat)

/-- The _sign function of gateway.py lines 28-32: build the prehash as the
concatenation timestamp + method + path + body, then base64-encode the
HMAC-SHA256 of it keyed by the secret.  A pure function of its five
arguments: the timestamp is a parameter, never read or cached inside. -/
def _sign (ts method path body secret : String) : String :=
  let prehash := ts ++ method ++ path ++ body
  base64Encode (hmacSha256 (strBytes secret) (strBytes prehash))

/-- Modelled from the spec: the Signer contract of spec section 4.1, a
deterministic tag that is the base64 encoding of the HMAC, keyed by the
secret, over the concatenation timestamp+method+path+body. -/
def signerSpec (ts method path body secret : String) : String :=
  base64Encode (hmacSha256 (strBytes secret)
    (strBytes (ts ++ method ++ path ++ body)))

end Signer

/-! ## Claim theorems -/

/-- A fully successful exchange environment: every mutating call is answered
with a 200 envelope of code "0" whose first item has sCode "0". -/
def okEnv : Env :=
  { ticker := some 0.1, availEq := some 1000000, equity := 1000000,
    maxSizeInfo := none, marginData := none, maxLoanInfo := none,
    orderResp := .ok "0" [⟨"0"⟩], closeResp := .ok "0" [⟨"0"⟩],
    borrowResp := .ok "0" [⟨"0"⟩], repayResp := .ok "0" [],
    riskRatio := 0.85 }

/-- An environment whose borrow-repay endpoint answers HTTP 200 with the
application-level rejection code "51000" (order rejected) in the envelope and
in the item sCode. -/
def rejectEnv : Env :=
  { okEnv with
    borrowResp := .ok "51000" [⟨"51000"⟩],
    repayResp := .ok "51000" [⟨"51000"⟩],
    maxLoanInfo := some ⟨1000000⟩ }

/-- C1: the claim fails on the code.  gateway.post returns the data array
normally on a 200 envelope whatever its embedded code, and BorrowMgr.borrow
and BorrowMgr.repay_all call post (not post_order) and never inspect the
code, so on an application-level rejection ("51000") borrow still adds the
amount to loan_usdt and reports success, and repay_all still zeroes the loan:
the ledger is mutated on a rejected exchange call. -/
theorem C1_borrow_ledger_updated_on_rejected_code :
    OKXGateway.post (.ok "51000" [⟨"51000"⟩]) = .ok [⟨"51000"⟩] ∧
    BorrowMgr.borrow rejectEnv ⟨1000, -1000, 500⟩ 100 =
      ([Eff.req .maxLoan, Eff.req (.borrowRepay "borrow" (some 100)),
        Eff.alert "Borrowed"], ⟨1000, -1000, 600⟩, true) ∧
    BorrowMgr.repay_all rejectEnv ⟨1000, -1000, 500⟩ =
      ([Eff.req (.borrowRepay "repay" none), Eff.alert "Loan fully repaid"],
        ⟨1000, -1000, 0⟩, true) := by
  refine ⟨rfl, ?_, ?_⟩ <;>
    norm_num [BorrowMgr.borrow, BorrowMgr.borrowPost, BorrowMgr.repay_all,
      OKXGateway.post, rejectEnv, okEnv]

/-- C2: with the ledger at (spot 1000, perp -1000, loan 500), a funding-rate
message for the watched instrument at exactly the flip threshold 0.00001
makes the funding monitor run close_all and then repay_all, and with both
exchange calls succeeding the ledger afterwards reads perp_qty 0 and
loan_usdt 0 with spot_qty still 1000. -/
theorem C2_funding_flip_unwind_scenario :
    Monitors.funding_step okEnv "DOGE-USDT-SWAP" ⟨1000, -1000, 500⟩
      ⟨"DOGE-USDT-SWAP", 0.00001⟩ =
    ([Eff.alert "Funding flip, closing legs",
      Eff.req .closePosition, Eff.alert "Perp short closed",
      Eff.req (.borrowRepay "repay" none), Eff.alert "Loan fully repaid"],
      ⟨1000, 0, 0⟩, .ok ()) := by
  norm_num [Monitors.funding_step, Monitors.flip_thr, PerpExec.close_all,
    BorrowMgr.repay_all, OKXGateway.post, okEnv]

/-- A successful post result is a 200 envelope with a non-empty data array
whose first item has sCode "0". -/
theorem postOk_shape (r : PostResult) (h : postOk r) :
    ∃ code item rest, r = .ok code (item :: rest) ∧ item.sCode = "0" := by
  match r with
  | .httpErr => exact absurd h (by simp [postOk])
  | .ok code [] => exact absurd h (by simp [postOk])
  | .ok code (item :: rest) => exact ⟨code, item, rest, rfl, h⟩

/-- post_order answers ok exactly on a postOk response. -/
theorem post_order_of_postOk (r : PostResult) (h : postOk r) :
    ∃ data, OKXGateway.post_order r = .ok data := by
  obtain ⟨code, item, rest, hr, hs⟩ := postOk_shape r h
  subst hr
  exact ⟨item :: rest, by simp [OKXGateway.post_order, OKXGateway.post, hs]⟩

/-- C7: whenever the stored perp quantity is not short, close_all is a no-op:
it issues no network request at all, leaves the ledger untouched, reports
"No short position to close" through the alerting collaborator, and returns
success — so a redundant unwind invocation is safe. -/
theorem C7_close_all_noop (env : Env) (st : Ledger)
    (h : st.perp_qty ≥ 0) :
    PerpExec.close_all env st =
      ([Eff.alert "No short position to close"], st, .ok true) := by
  unfold PerpExec.close_all
  rw [if_pos h]

/-- Witness for C7 at perp_qty = 0. -/
theorem C7_witness :
    (⟨1000, 0, 0⟩ : Ledger).perp_qty ≥ 0 ∧
    PerpExec.close_all okEnv ⟨1000, 0, 0⟩ =
      ([Eff.alert "No short position to close"], ⟨1000, 0, 0⟩, .ok true) :=
  ⟨by norm_num, C7_close_all_noop okEnv ⟨1000, 0, 0⟩ (by norm_num)⟩

/-- C8: every quantity-taking executor action rejects a non-positive
quantity before doing anything else: the effect trace is empty (no network
request of any kind) and the ledger is unchanged.  buy, sell and short raise
the invalid-quantity failure; borrow returns False and repay returns True,
both equally without any exchange interaction. -/
theorem C8_nonpositive_qty_rejected_before_network (env : Env) (st : Ledger)
    (qty : ℚ) (h : qty ≤ 0) :
    SpotExec.buy env st qty = ([], st, .error .invalidQuantity) ∧
    SpotExec.sell env st qty = ([], st, .error .invalidQuantity) ∧
    PerpExec.short env st qty = ([], st, .error .invalidQuantity) ∧
    BorrowMgr.borrow env st qty = ([], st, false) ∧
    BorrowMgr.repay env st qty = ([], st, true) := by
  refine ⟨?_, ?_, ?_, ?_, ?_⟩ <;>
    simp [SpotExec.buy, SpotExec.sell, PerpExec.short, BorrowMgr.borrow,
      BorrowMgr.repay, h]

/-- Witness for C8 at qty = -5 (the spec's scenario for the spot buy). -/
theorem C8_witness :
    ((-5 : ℚ) ≤ 0) ∧
    (SpotExec.buy okEnv ⟨1000, -1000, 500⟩ (-5) =
        ([], ⟨1000, -1000, 500⟩, .error .invalidQuantity) ∧
      SpotExec.sell okEnv ⟨1000, -1000, 500⟩ (-5) =
        ([], ⟨1000, -1000, 500⟩, .error .invalidQuantity) ∧
      PerpExec.short okEnv ⟨1000, -1000, 500⟩ (-5) =
        ([], ⟨1000, -1000, 500⟩, .error .invalidQuantity) ∧
      BorrowMgr.borrow okEnv ⟨1000, -1000, 500⟩ (-5) =
        ([], ⟨1000, -1000, 500⟩, false) ∧
      BorrowMgr.repay okEnv ⟨1000, -1000, 500⟩ (-5) =
        ([], ⟨1000, -1000, 500⟩, true)) :=
  ⟨by norm_num,
    C8_nonpositive_qty_rejected_before_network okEnv ⟨1000, -1000, 500⟩ (-5)
      (by norm_num)⟩

/-- close_all on a genuinely short ledger with a successful exchange response
posts close-position and zeroes perp_qty. -/
theorem close_all_success (env : Env) (st : Ledger)
    (hshort : st.perp_qty < 0) (hok : postOk env.closeResp) :
    PerpExec.close_all env st =
      ([Eff.req .closePosition, Eff.alert "Perp short closed"],
        { st with perp_qty := 0 }, .ok true) := by
  obtain ⟨code, item, rest, hr, hs⟩ := postOk_shape env.closeResp hok
  unfold PerpExec.close_all
  rw [if_neg (not_le.mpr hshort), hr]
  simp [OKXGateway.post, hs]

/-- C4: for a positions message on the watched short leg with non-zero
liquidation price, once gap = (liqPx - markPx) / markPx is at or below the
threshold, the monitor runs the unwind (close-position then repay), reads
the account risk state, and — the risk ratio being at least 0.80 and the
stored spot quantity positive — issues a spot sell order of exactly 30
percent of the stored spot quantity, in that order. -/
theorem C4_liq_gap_unwind_and_deleverage (env : Env) (pairSwap : String)
    (st : Ledger) (m : Monitors.PosMsg)
    (hinst : m.instId = pairSwap) (hside : m.posSide = "short")
    (hliq : m.liqPx ≠ 0)
    (hgap : (m.liqPx - m.markPx) / m.markPx ≤ Monitors.LIQ_THRESHOLD)
    (hshort : st.perp_qty < 0) (hclose : postOk env.closeResp)
    (hrr : env.riskRatio ≥ 0.80) (hspot : 0 < st.spot_qty) :
    [Eff.req .closePosition, Eff.req (.borrowRepay "repay" none),
      Eff.req .riskState,
      Eff.req (.order "sell" (st.spot_qty * 0.30))].Sublist
      (Monitors.liq_step env pairSwap st m).1 := by
  have hcut : 0 < st.spot_qty * (0.30 : ℚ) := by positivity
  have hncl : ¬ st.spot_qty * (0.30 : ℚ) > st.spot_qty := by
    rw [not_lt]
    nlinarith
  have hnq : ¬ st.spot_qty * (0.30 : ℚ) ≤ 0 := not_le.mpr hcut
  unfold Monitors.liq_step
  rw [if_neg (by push_neg; exact ⟨hinst, hside⟩), if_neg hliq, if_pos hgap,
    close_all_success env st hshort hclose]
  rcases hrep : env.repayResp with _ | ⟨rcode, rdata⟩ <;>
    rcases hpo : OKXGateway.post_order env.orderResp with e | odata <;>
      simp only [BorrowMgr.repay_all, OKXGateway.post, hrep, SpotExec.sell,
        hnq, hncl, hcut, if_pos hrr, if_neg hnq, if_pos hcut, hpo,
        if_false, if_true, ite_true, ite_false, ge_iff_le] <;>
      · simp only [hrr, if_true, if_pos, hcut, reduceIte, false_and,
          List.append_assoc, List.cons_append, List.nil_append]
        repeat
          first
          | exact List.nil_sublist _
          | apply List.Sublist.cons₂
          | apply List.Sublist.cons

/-- Witness for C4 at the spec scenario: mark 0.0998, liq 0.0999
(gap about 0.1 percent), risk ratio 0.85, ledger (1000, -1000, 500). -/
theorem C4_witness :
    (("DOGE-USDT-SWAP" : String) = "DOGE-USDT-SWAP" ∧
      (("short" : String) = "short") ∧ ((0.0999 : ℚ) ≠ 0) ∧
      (((0.0999 : ℚ) - 0.0998) / 0.0998 ≤ Monitors.LIQ_THRESHOLD) ∧
      ((⟨1000, -1000, 500⟩ : Ledger).perp_qty < 0) ∧
      postOk okEnv.closeResp ∧ (okEnv.riskRatio ≥ 0.80) ∧
      ((0 : ℚ) < (⟨1000, -1000, 500⟩ : Ledger).spot_qty)) ∧
    [Eff.req .closePosition, Eff.req (.borrowRepay "repay" none),
      Eff.req .riskState,
      Eff.req (.order "sell" ((1000 : ℚ) * 0.30))].Sublist
      (Monitors.liq_step okEnv "DOGE-USDT-SWAP" ⟨1000, -1000, 500⟩
        ⟨"DOGE-USDT-SWAP", "short", 0.0999, 0.0998⟩).1 :=
  ⟨⟨rfl, rfl, by norm_num, by norm_num [Monitors.LIQ_THRESHOLD],
      by norm_num, rfl, by norm_num [okEnv], by norm_num⟩,
    C4_liq_gap_unwind_and_deleverage okEnv "DOGE-USDT-SWAP"
      ⟨1000, -1000, 500⟩ ⟨"DOGE-USDT-SWAP", "short", 0.0999, 0.0998⟩
      rfl rfl (by norm_num) (by norm_num [Monitors.LIQ_THRESHOLD])
      (by norm_num) rfl (by norm_num [okEnv]) (by norm_num)⟩

/-- C9: a sell of a positive quantity above the stored spot position is not
rejected: the order is placed for the stored quantity instead (the clamp),
success leaves spot_qty at zero, the call raises (noSpotPosition, with no
network request) only when the stored quantity is itself non-positive, and
any successful sell leaves the recorded spot_qty non-negative. -/
theorem C9_sell_clamps_to_position (env : Env) (st : Ledger) (qty : ℚ) :
    (0 < qty → st.spot_qty < qty → 0 < st.spot_qty →
      Eff.req (.order "sell" st.spot_qty) ∈ (SpotExec.sell env st qty).1 ∧
      (postOk env.orderResp →
        (SpotExec.sell env st qty).2.2 = .ok true ∧
        (SpotExec.sell env st qty).2.1 = { st with spot_qty := 0 })) ∧
    (0 < qty → st.spot_qty ≤ 0 →
      SpotExec.sell env st qty =
        ([Eff.alert "Trying to sell more than position"], st,
          .error .noSpotPosition)) ∧
    ((SpotExec.sell env st qty).2.2 = .ok true →
      0 ≤ (SpotExec.sell env st qty).2.1.spot_qty) := by
  refine ⟨?_, ?_, ?_⟩
  · intro hq hlt hpos
    have hnq : ¬ qty ≤ 0 := not_le.mpr hq
    have hns : ¬ st.spot_qty ≤ 0 := not_le.mpr hpos
    constructor
    · rcases hpo : OKXGateway.post_order env.orderResp with e | data <;>
        simp [SpotExec.sell, hnq, hlt, hns, hpo]
    · intro hok
      obtain ⟨data, hpo⟩ := post_order_of_postOk env.orderResp hok
      simp [SpotExec.sell, hnq, hlt, hns, hpo]
  · intro hq hle
    have hnq : ¬ qty ≤ 0 := not_le.mpr hq
    have hlt : st.spot_qty < qty := lt_of_le_of_lt hle hq
    simp [SpotExec.sell, hnq, hlt, hle]
  · intro hok
    by_cases hq : qty ≤ 0
    · simp [SpotExec.sell, hq] at hok
    · by_cases hlt : st.spot_qty < qty
      · by_cases hle : st.spot_qty ≤ 0
        · simp [SpotExec.sell, hq, hlt, hle] at hok
        · rcases hpo : OKXGateway.post_order env.orderResp with e | data
          · simp [SpotExec.sell, hq, hlt, hle, hpo] at hok
          · simp [SpotExec.sell, hq, hlt, hle, hpo]
      · rcases hpo : OKXGateway.post_order env.orderResp with e | data
        · simp [SpotExec.sell, hq, hlt, hpo] at hok
        · have hge : qty ≤ st.spot_qty := not_lt.mp hlt
          simp [SpotExec.sell, hq, hlt, hpo, sub_nonneg, hge]

/-- Witness for C9: selling 5 with only 3 in the ledger clamps to 3 and
succeeds, leaving spot_qty 0. -/
theorem C9_witness :
    ((0 : ℚ) < 5 ∧ (⟨3, 0, 0⟩ : Ledger).spot_qty < 5 ∧
      (0 : ℚ) < (⟨3, 0, 0⟩ : Ledger).spot_qty ∧ postOk okEnv.orderResp) ∧
    Eff.req (.order "sell" (3 : ℚ)) ∈ (SpotExec.sell okEnv ⟨3, 0, 0⟩ 5).1 ∧
    (SpotExec.sell okEnv ⟨3, 0, 0⟩ 5).2.2 = .ok true ∧
    (SpotExec.sell okEnv ⟨3, 0, 0⟩ 5).2.1 = (⟨0, 0, 0⟩ : Ledger) := by
  have hpo : postOk okEnv.orderResp := rfl
  have h := (C9_sell_clamps_to_position okEnv ⟨3, 0, 0⟩ 5).1
    (by norm_num) (by norm_num) (by norm_num)
  exact ⟨⟨by norm_num, by norm_num, by norm_num, hpo⟩,
    h.1, (h.2 hpo).1, (h.2 hpo).2⟩

/-- C6 counterexample: at spot 1000, perp -990 the delta is exactly the 1
percent threshold (so the claim's "delta ≥ 1%" antecedent holds, with
positive imbalance +10 and a fully feasible environment), yet the cycle
issues no order at all — the inner guard abs(imbalance) > spot * thr is
strict, so the rebalancer only alerts and neither shorts nor re-reads. -/
theorem C6_boundary_counterexample :
    (|(1000 : ℚ) + (-990)| / 1000 ≥ Rebalancer.thr) ∧
    ((1000 : ℚ) + (-990) > 0) ∧
    Rebalancer.run_cycle okEnv ⟨1000, -990, 0⟩ =
      ([Eff.alert "rebalancing"], ⟨1000, -990, 0⟩, none) := by
  norm_num [Rebalancer.run_cycle, Rebalancer.thr, okEnv]

/-- C6 (amended): a cycle with zero spot quantity does nothing; and when the
absolute imbalance strictly exceeds spot * 1% (equivalently, delta strictly
above the threshold) with positive imbalance and a feasible environment, the
rebalancer issues a perp short order of exactly the imbalance, ends with
perp_qty = -spot_qty, and re-reads the ledger computing the new delta
(here 0). -/
theorem C6_rebalance_strict_threshold (env : Env) (st : Ledger) :
    (st.spot_qty = 0 → Rebalancer.run_cycle env st = ([], st, none)) ∧
    (∀ price, 0 < st.spot_qty →
      0 < st.spot_qty + st.perp_qty →
      st.spot_qty * Rebalancer.thr < |st.spot_qty + st.perp_qty| →
      env.ticker = some price →
      ¬ env.equity < |st.spot_qty + st.perp_qty| * price * 0.2 * 3 →
      env.marginData = none →
      postOk env.orderResp →
      Eff.req (.order "sell" (st.spot_qty + st.perp_qty)) ∈
        (Rebalancer.run_cycle env st).1 ∧
      (Rebalancer.run_cycle env st).2.1 = { st with perp_qty := -st.spot_qty } ∧
      (Rebalancer.run_cycle env st).2.2 = some 0) := by
  constructor
  · intro h0
    unfold Rebalancer.run_cycle
    rw [if_pos h0]
  · intro price hspot himb hthr hticker hfeas hmd hord
    have himbabs : |st.spot_qty + st.perp_qty| = st.spot_qty + st.perp_qty :=
      abs_of_pos himb
    obtain ⟨code, item, rest, hr, hs⟩ := postOk_shape env.orderResp hord
    have hshort_eval : PerpExec.short env st |st.spot_qty + st.perp_qty| =
        ([Eff.req .balance, Eff.req (.order "sell" (st.spot_qty + st.perp_qty)),
          Eff.alert "Perp SHORT"],
          { st with perp_qty := -st.spot_qty }, .ok true) := by
      unfold PerpExec.short
      rw [if_neg (not_le.mpr (abs_pos.mpr (ne_of_gt himb)))]
      unfold PerpExec.check_margin_requirements
      rw [hmd, hr]
      simp only [OKXGateway.post_order, OKXGateway.post, hs, if_true,
        reduceIte, himbabs]
      have hperp : st.perp_qty - (st.spot_qty + st.perp_qty) = -st.spot_qty := by
        ring
      simp [hperp]
    have hfe : Rebalancer.check_rebalance_feasibility env
        (st.spot_qty + st.perp_qty) = ([Eff.req .equity, Eff.req .ticker], true) := by
      unfold Rebalancer.check_rebalance_feasibility
      rw [if_neg (not_lt.mpr (le_of_lt himb)), hticker]
      simp [hfeas]
    have hsr : Rebalancer.safe_rebalance env st
        (st.spot_qty + st.perp_qty) st.spot_qty =
        ([Eff.req .equity, Eff.req .ticker, Eff.req .balance,
          Eff.req (.order "sell" (st.spot_qty + st.perp_qty)),
          Eff.alert "Perp SHORT", Eff.alert "Added short position"],
          { st with perp_qty := -st.spot_qty }, true) := by
      unfold Rebalancer.safe_rebalance
      rw [if_pos himb, hfe]
      simp [hshort_eval]
    have hdelta : |st.spot_qty + st.perp_qty| / st.spot_qty ≥ Rebalancer.thr := by
      rw [ge_iff_le, le_div_iff₀ hspot]
      nlinarith
    unfold Rebalancer.run_cycle
    rw [if_neg (ne_of_gt hspot), if_pos hdelta, if_pos hthr, hsr]
    simp only [if_true, reduceIte]
    refine ⟨by simp, by simp, ?_⟩
    have hz : st.spot_qty + -st.spot_qty = 0 := by ring
    simp [hspot, hz]

/-- Witness for C6 at the spec scenario spot 1000, perp -950: imbalance +50
strictly exceeds 10, a short of 50 is ordered and the recomputed delta is 0. -/
theorem C6_witness :
    ((0 : ℚ) < 1000 ∧ (0 : ℚ) < 1000 + (-950) ∧
      (1000 : ℚ) * Rebalancer.thr < |(1000 : ℚ) + (-950)| ∧
      okEnv.ticker = some 0.1 ∧
      ¬ okEnv.equity < |(1000 : ℚ) + (-950)| * 0.1 * 0.2 * 3 ∧
      okEnv.marginData = none ∧ postOk okEnv.orderResp) ∧
    Eff.req (.order "sell" ((1000 : ℚ) + (-950))) ∈
      (Rebalancer.run_cycle okEnv ⟨1000, -950, 0⟩).1 ∧
    (Rebalancer.run_cycle okEnv ⟨1000, -950, 0⟩).2.1 =
      (⟨1000, -1000, 0⟩ : Ledger) ∧
    (Rebalancer.run_cycle okEnv ⟨1000, -950, 0⟩).2.2 = some 0 := by
  have h := (C6_rebalance_strict_threshold okEnv ⟨1000, -950, 0⟩).2 0.1
    (by norm_num) (by norm_num) (by norm_num [Rebalancer.thr]) rfl
    (by norm_num [okEnv]) rfl rfl
  refine ⟨⟨by norm_num, by norm_num, by norm_num [Rebalancer.thr], rfl,
    by norm_num [okEnv], rfl, rfl⟩, h.1, ?_, h.2.2⟩
  rw [h.2.1]

/-- C10: the Signer of gateway.py is a pure function of
(timestamp, method, path, body, secret) — hence byte-identical across
repeated calls with equal inputs — and its tag is exactly the base64
encoding of the HMAC-SHA256, keyed by the secret, of the concatenation
timestamp + method + path + body. -/
theorem C10_signer_matches_hmac_spec (ts method path body secret : String) :
    Signer._sign ts method path body secret =
      Signer.signerSpec ts method path body secret := rfl

set_option maxRecDepth 200000 in
/-- Validation of the embedded SHA-256 against the standard test vector for
the message "abc". -/
theorem sha256_abc_test_vector : Signer.sha256 [97, 98, 99] =
    [186, 120, 22, 191, 143, 1, 207, 234, 65, 65,
     64, 222, 93, 174, 34, 35, 176, 3, 97, 163,
     150, 23, 122, 156, 180, 16, 255, 97, 242, 0,
     21, 173] := by decide

set_option maxRecDepth 600000 in
/-- Validation of the embedded HMAC-SHA256 against the classic test vector
with key "key" and message "The quick brown fox jumps over the lazy dog"
(given here as ASCII bytes). -/
theorem hmac_test_vector :
    Signer.hmacSha256 [107, 101, 121]
      [84, 104, 101, 32, 113, 117, 105, 99, 107, 32, 98, 114, 111, 119, 110,
       32, 102, 111, 120, 32, 106, 117, 109, 112, 115, 32, 111, 118, 101,
       114, 32, 116, 104, 101, 32, 108, 97, 122, 121, 32, 100, 111, 103] =
    [247, 188, 131, 244, 48, 83, 132, 36, 177, 50, 152, 230, 170, 111, 177,
     67, 239, 77, 89, 161, 73, 70, 23, 89, 151, 71, 157, 188, 45, 26, 60,
     216] := by decide

/-- Validation of the embedded base64 encoder, including padding. -/
theorem base64_test_vector :
    Signer.base64Encode [77, 97, 110] = "TWFu" ∧
    Signer.base64Encode [97, 98] = "YWI=" := by
  constructor <;> rfl

/-- C3 helper: folding the gated history from any local-read map applies the
callers' read-modify-write functions sequentially. -/
theorem runOps_gated_aux (f : ℕ → Ledger → Ledger) (callers : List ℕ) :
    ∀ (s0 : Ledger) (reads : ℕ → Option Ledger),
      ((StateDB.gated callers).foldl (StateDB.stepOp f)
        ⟨s0, reads⟩).ledger = callers.foldl (fun s i => f i s) s0 := by
  induction callers with
  | nil => intro s0 reads; simp [StateDB.gated]
  | cons i rest ih =>
    intro s0 reads
    have hgd : StateDB.gated (i :: rest) =
        StateDB.LOp.get i :: StateDB.LOp.save i :: StateDB.gated rest := by
      simp [StateDB.gated]
    rw [hgd]
    simp only [List.foldl_cons]
    have h1 : StateDB.stepOp f ⟨s0, reads⟩ (.get i) =
        ⟨s0, Function.update reads i (some s0)⟩ := rfl
    rw [h1]
    have h2 : StateDB.stepOp f ⟨s0, Function.update reads i (some s0)⟩
        (.save i) = ⟨f i s0, Function.update reads i (some s0)⟩ := by
      simp [StateDB.stepOp]
    rw [h2]
    exact ih (f i s0) _

/-- C3: the store's lock makes each get and each save one atomic event; when
every caller additionally holds the exclusive gate across its own get,
compute, save sequence (critical sections are contiguous, never interleaved),
the resulting ledger is the sequential composition of all the callers'
read-modify-write functions — every save is applied to the immediately
preceding committed state, so no save is lost. -/
theorem C3_gated_rmw_no_lost_update (f : ℕ → Ledger → Ledger) (s0 : Ledger)
    (callers : List ℕ) :
    StateDB.runOps f s0 (StateDB.gated callers) =
      callers.foldl (fun s i => f i s) s0 :=
  runOps_gated_aux f callers s0 _

namespace Gateway

/-- The slept delays of a concatenated event sequence split at the
concatenation point, the second part starting from the first part's final
delay. -/
theorem wsRun_append (a b : List WsEv) (d : ℚ) :
    wsRun (a ++ b) d =
      ((wsRun a d).1 ++ (wsRun b (wsRun a d).2).1,
        (wsRun b (wsRun a d).2).2) := by
  induction a generalizing d with
  | nil => simp [wsRun]
  | cons e a ih =>
    cases e with
    | okMsg => simp [wsRun, ih]
    | failure => simp [wsRun, ih]

/-- Doubling a capped power of two keeps the cap. -/
theorem min_two_mul_pow (k : ℕ) :
    min (2 * min ((2 : ℚ) ^ k) 60) 60 = min ((2 : ℚ) ^ (k + 1)) 60 := by
  rcases le_total ((2 : ℚ) ^ k) 60 with h | h
  · rw [min_eq_left h, pow_succ, mul_comm]
  · have h2 : (60 : ℚ) ≤ 2 ^ (k + 1) :=
      h.trans (pow_le_pow_right₀ (by norm_num) (Nat.le_succ k))
    rw [min_eq_right h, min_eq_right h2]
    norm_num

/-- Starting from a capped delay min(2^k, 60), N consecutive failures sleep
min(2^k,60), min(2^(k+1),60), and so on. -/
theorem wsRun_replicate_failure (N : ℕ) :
    ∀ k, (wsRun (List.replicate N .failure) (min ((2 : ℚ) ^ k) 60)).1 =
      (List.range N).map (fun j => min ((2 : ℚ) ^ (k + j)) 60) := by
  induction N with
  | zero => intro k; simp [wsRun]
  | succ n ih =>
    intro k
    rw [List.replicate_succ]
    show (min ((2:ℚ)^k) 60 ::
      (wsRun (List.replicate n .failure)
        (min (2 * min ((2:ℚ)^k) 60) 60)).1) = _
    rw [min_two_mul_pow k, ih (k + 1), List.range_succ_eq_map]
    simp only [List.map_cons, List.map_map, Nat.add_zero]
    congr 1
    apply List.map_congr_left
    intro j _
    have h3 : k + 1 + j = k + Nat.succ j := by omega
    simp [Function.comp_apply, h3]

end Gateway

/-- C5: in the private-stream reconnect loop, after any prefix of events and
a successful message, N consecutive read failures sleep the delays
min(2^0,60), min(2^1,60), ..., min(2^(N-1),60) seconds in order: the Nth
consecutive failure sleeps min(1*2^(N-1), 60) seconds and a single success
resets the progression so that the next failure sleeps 1 second again. -/
theorem C5_reconnect_backoff (evs : List Gateway.WsEv) (d : ℚ) (N : ℕ) :
    (Gateway.wsRun
        (evs ++ Gateway.WsEv.okMsg :: List.replicate N Gateway.WsEv.failure)
        d).1 =
      (Gateway.wsRun evs d).1 ++
        (List.range N).map (fun k => min ((2 : ℚ) ^ k) 60) := by
  rw [Gateway.wsRun_append]
  have h1 : (1 : ℚ) = min ((2 : ℚ) ^ 0) 60 := by norm_num
  show (Gateway.wsRun evs d).1 ++
      (Gateway.wsRun (List.replicate N Gateway.WsEv.failure) 1).1 = _
  rw [h1, Gateway.wsRun_replicate_failure N 0]
  simp

end DogeBot
